import Mathlib

/-!
A shallow embedding of the cellIdTracker REST API
(src/cellidtracker_rest_api.py) in Lean 4.

The repository is a Flask + marshmallow-mongoengine CRUD service.  We embed:

* JSON request bodies as association lists of `JValue`s;
* the marshmallow schemas (`AuthSchema`, `SourceSchema`, `MeasurementSchema`,
  `GetMeasurementSchema`, `GetMeasurementsSchema`) as lists of field
  specifications plus the schema-level validators from the source
  (`check_unknown_fields`, `validate_coordinates`);
* the mongo collections as lists of records inside a `DB` state;
* each HTTP handler (`auth`, `post_measurement`, `get_measurement`,
  `get_measurements`) as a function from request data and `DB` to an
  `HttpResp` and a new `DB`.

Library semantics that the repository relies on are embedded as follows.
The schemas are strict: `validate`/`load` raise `ValidationError` on bad
input (the semantics the handlers and the Flask error handlers are written
against).  marshmallow 2.x specifics are kept: `@validates_schema`
validators run even when field-level errors exist (`skip_on_field_errors`
defaults to `False` in marshmallow 2), they receive only the successfully
deserialized fields, and a non-`ValidationError` exception escaping a
validator propagates to Flask's generic `Exception` handler (HTTP 500).
`AuthSchema.handle_error` turns any error mentioning `psk` into a 401.
Floats are embedded as `Rat`: the handlers only compare them, never do
float arithmetic, so the embedding is exact for every representable input.
Mongo ObjectIds are 24-character hex strings; document ids are drawn from
a counter `nextId` and rendered with `natToObjectId`.  ISO date-time
parsing is a library detail no claim depends on; timestamps are embedded
as strings.  A client-supplied `id` primary key in a POST body is accepted
by the schemas (the auto-generated `id` field) but its effect on `save()`
is a mongoengine detail outside every claim; the embedding always assigns
a fresh id on save.
-/

namespace CellIdTracker

/-- JSON values appearing in request bodies and responses. -/
inductive JValue where
  | s : String → JValue
  | n : Rat → JValue
  | b : Bool → JValue
  | arr : List JValue → JValue
  | obj : List (String × JValue) → JValue
  | null : JValue

/-- A JSON object (a request body): an association list with distinct keys. -/
abbrev Body := List (String × JValue)

/-- Dictionary lookup in a JSON object. -/
def lookupJ (body : Body) (k : String) : Option JValue :=
  (body.find? (fun kv => kv.1 == k)).map Prod.snd

/-- Lookup in a string/string map (Flask `request.args`). -/
def lookupStr (args : List (String × String)) (k : String) : Option String :=
  (args.find? (fun kv => kv.1 == k)).map Prod.snd

/-- Hexadecimal digit, upper or lower case. -/
def isHexChar (c : Char) : Bool :=
  c.isDigit || ('a' ≤ c && c ≤ 'f') || ('A' ≤ c && c ≤ 'F')

/-- A syntactically valid bson ObjectId: 24 hexadecimal characters. -/
def isObjectIdStr (s : String) : Bool :=
  s.length == 24 && s.data.all isHexChar

/-- Render a document id (a counter value) as a 24-character hex ObjectId. -/
def natToObjectId (n : Nat) : String :=
  let ds := Nat.toDigits 16 n
  String.mk (List.replicate (24 - ds.length) '0' ++ ds)

/-- marshmallow `fields.String`: accepts a JSON string. -/
def checkString : JValue → Bool
  | JValue.s _ => true
  | _ => false

/-- marshmallow `fields.Number`/`Float`: accepts a JSON number. -/
def checkNumber : JValue → Bool
  | JValue.n _ => true
  | _ => false

/-- marshmallow-mongoengine ObjectId field: a valid ObjectId string. -/
def checkObjectIdVal : JValue → Bool
  | JValue.s t => isObjectIdStr t
  | _ => false

/-- String value of a validated field (the default is unreachable after
validation succeeded). -/
def getStr (body : Body) (k : String) : String :=
  match lookupJ body k with
  | some (JValue.s v) => v
  | _ => ""

/-- Numeric value of a validated field. -/
def getNum (body : Body) (k : String) : Rat :=
  match lookupJ body k with
  | some (JValue.n v) => v
  | _ => 0

/-- The embedded `LocationInformation` document
(latitude/longitude/accuracy floats required, altitude optional, age int
required). -/
structure LocationInformationRec where
  latitude : Rat
  longitude : Rat
  accuracy : Rat
  altitude : Option Rat
  age : Int

/-- Nested load of `location_information` through the auto-generated
nested schema: required fields and types are checked (the repository's
unknown-field rejection only works at the top level, per the TODO in the
source, so extra nested keys are ignored). -/
def loadLocationInformation : JValue → Option LocationInformationRec
  | JValue.obj kvs =>
      match lookupJ kvs "latitude", lookupJ kvs "longitude",
            lookupJ kvs "accuracy", lookupJ kvs "age" with
      | some (JValue.n lat), some (JValue.n lon),
        some (JValue.n acc), some (JValue.n age) =>
          match lookupJ kvs "altitude" with
          | none => some ⟨lat, lon, acc, none, age.floor⟩
          | some (JValue.n alt) => some ⟨lat, lon, acc, some alt, age.floor⟩
          | some _ => none
      | _, _, _, _ => none
  | _ => none

/-- One `CellInfo` element: `active` bool, `type` in the enumerated radio
types, `cell_identity` and `cell_signal_strength` free-form objects. -/
def checkCellInfo (v : JValue) : Bool :=
  match v with
  | JValue.obj kvs =>
      (match lookupJ kvs "active" with
       | some (JValue.b _) => true
       | _ => false) &&
      (match lookupJ kvs "type" with
       | some (JValue.s t) => (["LTE", "UMTS", "CDMA", "GSM"] : List String).contains t
       | _ => false) &&
      (match lookupJ kvs "cell_identity" with
       | some (JValue.obj _) => true
       | _ => false) &&
      (match lookupJ kvs "cell_signal_strength" with
       | some (JValue.obj _) => true
       | _ => false)
  | _ => false

/-- `cell_info`: a list of `CellInfo` objects. -/
def checkCellInfoList (v : JValue) : Bool :=
  match v with
  | JValue.arr l => l.all checkCellInfo
  | _ => false

/-- One marshmallow schema field: its name, whether it is required, and
its type check. -/
structure FieldSpec where
  name : String
  required : Bool
  check : JValue → Bool

/-- Field-level outcome for one declared field: `required` errors for
missing fields, type errors for ill-typed ones (marshmallow 2 message for
the former; the per-type texts are library constants summarized as one). -/
def fieldErrOf (body : Body) (f : FieldSpec) : Option (String × String) :=
  match lookupJ body f.name with
  | none => if f.required then some (f.name, "Missing data for required field.") else none
  | some v => if f.check v then none else some (f.name, "Invalid value.")

/-- All field-level errors of a schema on a body (marshmallow collects
them per field before schema-level validators run). -/
def fieldErrors (fs : List FieldSpec) (body : Body) : List (String × String) :=
  fs.filterMap (fieldErrOf body)

/-- `ValidationModelSchema.check_unknown_fields`: the keys of the original
data that are not declared schema fields. -/
def unknownFields (fs : List FieldSpec) (body : Body) : List String :=
  (body.map Prod.fst).filter (fun k => decide (k ∉ fs.map FieldSpec.name))

/-- Combined validation errors of a `ValidationModelSchema` subclass:
field errors plus one `Received data for unexpected field.` message per
unknown top-level key. -/
def schemaErrors (fs : List FieldSpec) (body : Body) : List (String × String) :=
  fieldErrors fs body ++
    (unknownFields fs body).map (fun k => (k, "Received data for unexpected field."))

/-- `SourceSchema` fields: the model-generated `id` plus the `Source`
document fields (all required strings). -/
def sourceSchemaFields : List FieldSpec :=
  [⟨"id", false, checkObjectIdVal⟩,
   ⟨"imei", true, checkString⟩,
   ⟨"imsi", true, checkString⟩,
   ⟨"readable_name", true, checkString⟩]

/-- `AuthSchema` fields: `SourceSchema` plus a required `psk` string. -/
def authSchemaFields : List FieldSpec :=
  sourceSchemaFields ++ [⟨"psk", true, checkString⟩]

/-- `MeasurementSchema` fields, generated from the `Measurement` model. -/
def measurementSchemaFields : List FieldSpec :=
  [⟨"id", false, checkObjectIdVal⟩,
   ⟨"version", true, checkString⟩,
   ⟨"source_id", true, checkObjectIdVal⟩,
   ⟨"timestamp", true, checkString⟩,
   ⟨"location_information", false, fun v => (loadLocationInformation v).isSome⟩,
   ⟨"battery", true, checkNumber⟩,
   ⟨"cell_info", false, checkCellInfoList⟩]

/-- Declared field names of a schema. -/
def fieldNames (fs : List FieldSpec) : List String :=
  fs.map FieldSpec.name

/-- A persisted `Source` document from the `sources` collection. -/
structure SourceRec where
  id : Nat
  imei : String
  imsi : String
  readable_name : String

/-- A persisted `Measurement` document from the `measurements`
collection.  `cell_info` keeps the validated JSON elements. -/
structure MeasurementRec where
  id : Nat
  version : String
  source_id : String
  timestamp : String
  location_information : Option LocationInformationRec
  battery : Rat
  cell_info : List JValue

/-- The persisted state: both collections plus the id counter. -/
structure DB where
  sources : List SourceRec
  measurements : List MeasurementRec
  nextId : Nat

/-- An empty database. -/
def emptyDB : DB := ⟨[], [], 0⟩

/-- An error payload: plain text (`me.ValidationError.message`, the 403
and 404 messages, `str(exception)`) or a marshmallow messages map. -/
inductive RespMessage where
  | text : String → RespMessage
  | fieldMap : List (String × String) → RespMessage

/-- A JSON HTTP response: the status plus whichever payload fields the
endpoint emits. -/
structure HttpResp where
  status : Nat
  message : Option RespMessage
  source_id : Option Nat
  result : Option (List (String × JValue))
  len : Option Nat
  results : Option (List (List (String × JValue)))

/-- The strict validation errors of `AuthSchema` on a body. -/
def authValidationErrors (body : Body) : List (String × String) :=
  schemaErrors authSchemaFields body

/-- `existing_source_record.readable_name = ...; save()`: update the
matched record in place. -/
def updateSourceName (l : List SourceRec) (i : Nat) (rn : String) : List SourceRec :=
  l.map (fun r => if r.id == i then ⟨r.id, r.imei, r.imsi, rn⟩ else r)

/-- The `POST /auth` handler.  Validates the body against `AuthSchema`
(a `psk` failure becomes 401 via `AuthSchema.handle_error`, anything else
400), loads the `Source`, rejects a wrong `psk` with 403, then either
updates the `readable_name` of the unique `(imei, imsi)` match (200) or
persists a new `Source` (201).  `Source.objects.get` raises
`MultipleObjectsReturned` (HTTP 500 via the generic handler) when several
records match. -/
def authStep (secret : String) (body : Body) (db : DB) : HttpResp × DB :=
  match authValidationErrors body with
  | [] =>
      let imei := getStr body "imei"
      let imsi := getStr body "imsi"
      let rn := getStr body "readable_name"
      if getStr body "psk" == secret then
        match db.sources.filter (fun r => r.imei == imei && r.imsi == imsi) with
        | [] =>
            (⟨201, none, some db.nextId, none, none, none⟩,
             ⟨db.sources ++ [⟨db.nextId, imei, imsi, rn⟩], db.measurements, db.nextId + 1⟩)
        | [r] =>
            (⟨200, none, some r.id, none, none, none⟩,
             ⟨updateSourceName db.sources r.id rn, db.measurements, db.nextId⟩)
        | _ =>
            (⟨500, some (RespMessage.text "2 or more items returned, instead of 1"),
              none, none, none, none⟩, db)
      else
        (⟨403, some (RespMessage.text "No or wrong PSK provided."), none, none, none, none⟩, db)
  | errs =>
      (⟨if "psk" ∈ errs.map Prod.fst then 401 else 400,
        some (RespMessage.fieldMap errs), none, none, none, none⟩, db)

/-- Build the `Measurement` document from a validated body (fresh id
assigned at `save()`). -/
def loadMeasurement (body : Body) (newId : Nat) : MeasurementRec :=
  ⟨newId, getStr body "version", getStr body "source_id", getStr body "timestamp",
   (lookupJ body "location_information").bind loadLocationInformation,
   getNum body "battery",
   match lookupJ body "cell_info" with
   | some (JValue.arr l) => l
   | _ => []⟩

/-- The `POST /measurements` handler: validate against
`MeasurementSchema` (400 on failure) and persist one new document
(201). -/
def postMeasurementStep (body : Body) (db : DB) : HttpResp × DB :=
  match schemaErrors measurementSchemaFields body with
  | [] =>
      (⟨201, none, none, none, none, none⟩,
       ⟨db.sources, db.measurements ++ [loadMeasurement body db.nextId], db.nextId + 1⟩)
  | errs =>
      (⟨400, some (RespMessage.fieldMap errs), none, none, none, none⟩, db)

/-- Split a list of characters at a separator, like Python `str.split`
with an explicit separator (an empty input yields one empty piece). -/
def splitCharAux (sep : Char) : List Char → List Char → List String
  | [], acc => [String.mk acc.reverse]
  | c :: rest, acc =>
      if c = sep then String.mk acc.reverse :: splitCharAux sep rest []
      else splitCharAux sep rest (c :: acc)

/-- Python `s.split(',')`, used for the `measurement_fields` projection. -/
def splitComma (s : String) : List String :=
  splitCharAux ',' s.data []

/-- Numeric value of a digit string (the caller checks the digits). -/
def natOfDigits (cs : List Char) : Nat :=
  cs.foldl (fun a c => a * 10 + (c.toNat - 48)) 0

/-- Python `float(str)` on the query-string values this service accepts:
optional sign, decimal digits, optional fractional part. -/
def parseDecimal (s : String) : Option Rat :=
  let withSign : Bool × List Char :=
    match s.data with
    | '-' :: r => (true, r)
    | '+' :: r => (false, r)
    | cs => (false, cs)
  let mk : Rat → Rat := fun q => if withSign.1 then -q else q
  match splitCharAux '.' withSign.2 [] with
  | [w] =>
      if !w.data.isEmpty && w.data.all Char.isDigit then
        some (mk (natOfDigits w.data))
      else none
  | [w, f] =>
      if !(w.data ++ f.data).isEmpty && (w.data ++ f.data).all Char.isDigit then
        some (mk ((natOfDigits w.data : Rat) +
          (natOfDigits f.data : Rat) / (10 : Rat) ^ f.data.length))
      else none
  | _ => none

/-- Python `int(str)`: optional sign and decimal digits. -/
def parseInteger (s : String) : Option Int :=
  match s.data with
  | '-' :: r => if !r.isEmpty && r.all Char.isDigit then some (-(natOfDigits r : Int)) else none
  | '+' :: r => if !r.isEmpty && r.all Char.isDigit then some (natOfDigits r : Int) else none
  | cs => if !cs.isEmpty && cs.all Char.isDigit then some (natOfDigits cs : Int) else none

/-- The partially deserialized data that `GetMeasurementsSchema` hands to
its schema-level validator: only fields that loaded successfully are
present (marshmallow 2 drops missing and failed fields). -/
structure GMData where
  latU : Option Rat
  latL : Option Rat
  lonL : Option Rat
  lonU : Option Rat
  minAge : Option Int
  maxAge : Option Int
  minAcc : Option Rat
  maxAcc : Option Rat
  mfields : Option String

/-- A required `fields.Float` query parameter: a missing or unparsable
value is a field error and stays out of the data. -/
def reqFloatField (args : List (String × String)) (name : String) :
    Option Rat × List (String × String) :=
  match lookupStr args name with
  | none => (none, [(name, "Missing data for required field.")])
  | some v =>
      match parseDecimal v with
      | some q => (some q, [])
      | none => (none, [(name, "Not a valid number.")])

/-- An optional `fields.Integer(validate=Range(min=0))` parameter. -/
def optNonNegIntField (args : List (String × String)) (name : String) :
    Option Int × List (String × String) :=
  match lookupStr args name with
  | none => (none, [])
  | some v =>
      match parseInteger v with
      | none => (none, [(name, "Not a valid integer.")])
      | some i => if i < 0 then (none, [(name, "Must be at least 0.")]) else (some i, [])

/-- An optional `fields.Float(validate=Range(min=0))` parameter. -/
def optNonNegFloatField (args : List (String × String)) (name : String) :
    Option Rat × List (String × String) :=
  match lookupStr args name with
  | none => (none, [])
  | some v =>
      match parseDecimal v with
      | none => (none, [(name, "Not a valid number.")])
      | some q => if q < 0 then (none, [(name, "Must be at least 0.")]) else (some q, [])

/-- Field-level deserialization of `GetMeasurementsSchema` on the query
string: the collected field errors and the partial data.  Unknown query
parameters are ignored (this schema has no `check_unknown_fields`). -/
def parseGM (args : List (String × String)) :
    List (String × String) × GMData :=
  let fU := reqFloatField args "latitude_upper_bound"
  let fL := reqFloatField args "latitude_lower_bound"
  let gL := reqFloatField args "longitude_lower_bound"
  let gU := reqFloatField args "longitude_upper_bound"
  let aMin := optNonNegIntField args "min_location_age"
  let aMax := optNonNegIntField args "max_location_age"
  let cMin := optNonNegFloatField args "min_location_accuracy"
  let cMax := optNonNegFloatField args "max_location_accuracy"
  (fU.2 ++ fL.2 ++ gL.2 ++ gU.2 ++ aMin.2 ++ aMax.2 ++ cMin.2 ++ cMax.2,
   ⟨fU.1, fL.1, gL.1, gU.1, aMin.1, aMax.1, cMin.1, cMax.1,
    lookupStr args "measurement_fields"⟩)

/-- Outcome of `validate_coordinates`: validated bounds, a
`ValidationError` message, or an uncaught `KeyError` on the named key
(marshmallow 2 runs the validator even when required fields failed, and
only catches `ValidationError`). -/
inductive CoordCheck where
  | ok : Rat → Rat → Rat → Rat → CoordCheck
  | err : String → CoordCheck
  | crash : String → CoordCheck

/-- The accuracy clause of `validate_coordinates` (`'min_location_accuracy'
in data and 'max_location_accuracy' in data and min > max`). -/
def checkAccuracyBounds (u l a b : Rat) (d : GMData) : CoordCheck :=
  match d.minAcc, d.maxAcc with
  | some x, some y =>
      if x > y then
        CoordCheck.err "min_location_accuracy must be smaller than max_location_accuracy."
      else CoordCheck.ok u l a b
  | _, _ => CoordCheck.ok u l a b

/-- `GetMeasurementsSchema.validate_coordinates`, with Python's
evaluation order: each `data[...]` subscript raises `KeyError` when the
field did not load, and each failed comparison raises before later
subscripts run. -/
def validateCoordinates (d : GMData) : CoordCheck :=
  match d.latU with
  | none => CoordCheck.crash "latitude_upper_bound"
  | some u =>
      match d.latL with
      | none => CoordCheck.crash "latitude_lower_bound"
      | some l =>
          if u < l then
            CoordCheck.err "latitude_upper_bound must be greater than latitude_lower_bound."
          else
            match d.lonL with
            | none => CoordCheck.crash "longitude_lower_bound"
            | some a =>
                match d.lonU with
                | none => CoordCheck.crash "longitude_upper_bound"
                | some b =>
                    if a > b then
                      CoordCheck.err "longitude_lower_bound must be smaller than longitude_upper_bound."
                    else
                      match d.minAge, d.maxAge with
                      | some x, some y =>
                          if x > y then
                            CoordCheck.err "min_location_age must be smaller than max_location_age."
                          else checkAccuracyBounds u l a b d
                      | _, _ => checkAccuracyBounds u l a b d

/-- The validated query of `GET /measurements`. -/
structure QueryParams where
  latU : Rat
  latL : Rat
  lonL : Rat
  lonU : Rat
  minAge : Option Int
  maxAge : Option Int
  minAcc : Option Rat
  maxAcc : Option Rat
  mfields : Option String

/-- Result of loading the query string through `GetMeasurementsSchema`:
validated parameters, a strict `ValidationError` (HTTP 400), or an
uncaught exception (HTTP 500 via Flask's generic handler). -/
inductive GMLoad where
  | ok : QueryParams → GMLoad
  | verr : List (String × String) → GMLoad
  | generr : String → GMLoad

/-- `get_measurements_schema.load(request.args)`: field deserialization,
then `validate_coordinates` (whose `KeyError` escapes as a generic
error; `str(KeyError(k))` is the quoted key), then the strict raise when
any errors accumulated (a schema-validator message is keyed `_schema`). -/
def loadGetMeasurements (args : List (String × String)) : GMLoad :=
  let p := parseGM args
  match validateCoordinates p.2 with
  | CoordCheck.crash k => GMLoad.generr ("\x27" ++ k ++ "\x27")
  | CoordCheck.err m => GMLoad.verr (p.1 ++ [("_schema", m)])
  | CoordCheck.ok u l a b =>
      if p.1.isEmpty then
        GMLoad.ok ⟨u, l, a, b, p.2.minAge, p.2.maxAge, p.2.minAcc, p.2.maxAcc, p.2.mfields⟩
      else GMLoad.verr p.1

/-- The mongo filter built by `get_measurements`: latitude and longitude
within the bounds, and each supplied age/accuracy bound, all on the
embedded `location_information` (a document without one matches no
`location_information__...` condition). -/
def matchesQuery (p : QueryParams) (m : MeasurementRec) : Bool :=
  match m.location_information with
  | none => false
  | some li =>
      decide (li.latitude ≤ p.latU) && decide (p.latL ≤ li.latitude) &&
      decide (p.lonL ≤ li.longitude) && decide (li.longitude ≤ p.lonU) &&
      (match p.minAge with
       | none => true
       | some x => decide (x ≤ li.age)) &&
      (match p.maxAge with
       | none => true
       | some y => decide (li.age ≤ y)) &&
      (match p.minAcc with
       | none => true
       | some x => decide (x ≤ li.accuracy)) &&
      (match p.maxAcc with
       | none => true
       | some y => decide (li.accuracy ≤ y))

/-- The predicate of the specification, stated in its words: the location
latitude lies in the closed interval `[latitude_lower_bound,
latitude_upper_bound]`, the longitude in `[longitude_lower_bound,
longitude_upper_bound]`, and each supplied age and accuracy bound holds
independently. -/
def specMatches (p : QueryParams) (m : MeasurementRec) : Bool :=
  match m.location_information with
  | none => false
  | some li =>
      decide (p.latL ≤ li.latitude ∧ li.latitude ≤ p.latU) &&
      decide (p.lonL ≤ li.longitude ∧ li.longitude ≤ p.lonU) &&
      (match p.minAge with
       | none => true
       | some x => decide (x ≤ li.age)) &&
      (match p.maxAge with
       | none => true
       | some y => decide (li.age ≤ y)) &&
      (match p.minAcc with
       | none => true
       | some x => decide (x ≤ li.accuracy)) &&
      (match p.maxAcc with
       | none => true
       | some y => decide (li.accuracy ≤ y))

/-- Serialize `location_information` (a `None` altitude is skipped, per
the marshmallow-mongoengine `model_skip_values` default). -/
def dumpLocation (li : LocationInformationRec) : JValue :=
  JValue.obj
    ([("latitude", JValue.n li.latitude), ("longitude", JValue.n li.longitude),
      ("accuracy", JValue.n li.accuracy)] ++
     (match li.altitude with
      | some a => [("altitude", JValue.n a)]
      | none => []) ++
     [("age", JValue.n (li.age : Rat))])

/-- `measurement_schema.dump` of a full document. -/
def dumpMeasurement (m : MeasurementRec) : List (String × JValue) :=
  [("id", JValue.s (natToObjectId m.id)), ("version", JValue.s m.version),
   ("source_id", JValue.s m.source_id), ("timestamp", JValue.s m.timestamp)] ++
  (match m.location_information with
   | some li => [("location_information", dumpLocation li)]
   | none => []) ++
  [("battery", JValue.n m.battery), ("cell_info", JValue.arr m.cell_info)]

/-- The `.only(*measurement_fields.split(','))` projection composed with
the dump: keep exactly the requested top-level fields (names the document
does not have are simply omitted). -/
def projectFields (names : List String) (d : List (String × JValue)) :
    List (String × JValue) :=
  d.filter (fun kv => decide (kv.1 ∈ names))

/-- Apply the optional `measurement_fields` projection. -/
def projectOpt (mf : Option String) (d : List (String × JValue)) :
    List (String × JValue) :=
  match mf with
  | none => d
  | some s => projectFields (splitComma s) d

/-- The `GET /measurement/<measurement_id>` handler: a malformed
ObjectId makes the mongo query transform raise `me.ValidationError`
(HTTP 400 via the registered handler); otherwise the document is fetched
by id, optionally projected, and returned (200), or reported missing
(404, naming the identifier). -/
def getMeasurementStep (mid : String) (args : List (String × String)) (db : DB) :
    HttpResp × DB :=
  let mf := lookupStr args "measurement_fields"
  if isObjectIdStr mid then
    match db.measurements.find? (fun m => natToObjectId m.id == mid) with
    | some m =>
        (⟨200, none, none, some (projectOpt mf (dumpMeasurement m)), none, none⟩, db)
    | none =>
        (⟨404, some (RespMessage.text
            ("Measurement with object id " ++ mid ++ " was not found.")),
          none, none, none, none⟩, db)
  else
    (⟨400, some (RespMessage.text (mid ++ " is not a valid ObjectId")),
      none, none, none, none⟩, db)

/-- The `GET /measurements` handler: load the query (400 on validation
failure, 500 on an uncaught exception), filter the collection, project,
and answer 200 with the count and the full result list — no pagination
and no limit. -/
def getMeasurementsStep (args : List (String × String)) (db : DB) :
    HttpResp × DB :=
  match loadGetMeasurements args with
  | GMLoad.generr m =>
      (⟨500, some (RespMessage.text m), none, none, none, none⟩, db)
  | GMLoad.verr errs =>
      (⟨400, some (RespMessage.fieldMap errs), none, none, none, none⟩, db)
  | GMLoad.ok p =>
      let ms := db.measurements.filter (matchesQuery p)
      (⟨200, none, none, none, some ms.length,
        some (ms.map (fun m => projectOpt p.mfields (dumpMeasurement m)))⟩, db)

/-- Both age bounds, when supplied, are in order. -/
def ageBoundsOk (d : GMData) : Prop :=
  ∀ x y, d.minAge = some x → d.maxAge = some y → x ≤ y

/-- Both accuracy bounds, when supplied, are in order. -/
def accBoundsOk (d : GMData) : Prop :=
  ∀ x y, d.minAcc = some x → d.maxAcc = some y → x ≤ y

/-- A well-formed auth body used as a concrete test vector. -/
def c1Body : Body :=
  [("imei", JValue.s "350000000000001"), ("imsi", JValue.s "262010000000001"),
   ("readable_name", JValue.s "test phone"), ("psk", JValue.s "defaultpsk")]

/-- The same body with an extra, undeclared top-level field. -/
def c2Body : Body := ("foo", JValue.s "bar") :: c1Body

/-- The same body with `psk` omitted. -/
def c3Body : Body :=
  [("imei", JValue.s "350000000000001"), ("imsi", JValue.s "262010000000001"),
   ("readable_name", JValue.s "test phone")]

/-- The same body with a wrong `psk`. -/
def c4Body : Body :=
  [("imei", JValue.s "350000000000001"), ("imsi", JValue.s "262010000000001"),
   ("readable_name", JValue.s "test phone"), ("psk", JValue.s "wrongpsk")]

/-- A persisted measurement at a given latitude (id, then latitude). -/
def mAt (i : Nat) (lat : Rat) : MeasurementRec :=
  ⟨i, "1", natToObjectId 99, "2020-01-01T00:00:00", some ⟨lat, 0, 5, none, 0⟩, 50, []⟩

/-- Three persisted measurements at latitudes 10, 20 and 30. -/
def c5DB : DB := ⟨[], [mAt 0 10, mAt 1 20, mAt 2 30], 3⟩

/-- A bounding-box query with latitude bounds 15..25 and covering
longitude bounds. -/
def c5Args : List (String × String) :=
  [("latitude_upper_bound", "25"), ("latitude_lower_bound", "15"),
   ("longitude_lower_bound", "-180"), ("longitude_upper_bound", "180")]

/-- The parameters `c5Args` load to. -/
def c5P : QueryParams := ⟨25, 15, -180, 180, none, none, none, none, none⟩

/-- A query whose latitude bounds are inverted. -/
def c6Args : List (String × String) :=
  [("latitude_upper_bound", "10"), ("latitude_lower_bound", "20"),
   ("longitude_lower_bound", "0"), ("longitude_upper_bound", "1")]

/-- The partial data `c6Args` deserializes to. -/
def c6Data : GMData := ⟨some 10, some 20, some 0, some 1, none, none, none, none, none⟩

/-- A query that supplies only the two latitude bounds. -/
def c7Args : List (String × String) :=
  [("latitude_lower_bound", "10"), ("latitude_upper_bound", "20")]

/-! ## Helper lemmas -/

/-- The mongo filter built by `get_measurements` is exactly the
specification's bounding-box predicate. -/
theorem specMatches_eq_matchesQuery (p : QueryParams) (m : MeasurementRec) :
    specMatches p m = matchesQuery p m := by
  unfold specMatches matchesQuery
  cases m.location_information with
  | none => rfl
  | some li =>
      simp [Bool.decide_and, Bool.and_comm, Bool.and_left_comm, Bool.and_assoc]

/-- When every declared field validated, no `psk` error can be among the
auth errors: the remaining errors are unknown-field errors, and `psk` is
a declared field. -/
theorem psk_not_in_unknown_errors {body : Body}
    (hfe : fieldErrors authSchemaFields body = []) :
    "psk" ∉ (authValidationErrors body).map Prod.fst := by
  intro hc
  rcases List.mem_map.1 hc with ⟨kv, hkv, hfst⟩
  simp only [authValidationErrors, schemaErrors, hfe, List.nil_append] at hkv
  rcases List.mem_map.1 hkv with ⟨k, hk, hpair⟩
  have hnotin : k ∉ authSchemaFields.map FieldSpec.name :=
    of_decide_eq_true (List.mem_filter.1 hk).2
  apply hnotin
  have hkeq : k = "psk" := by
    have := congrArg Prod.fst hpair
    simpa [hfst] using this
  rw [hkeq]
  simp [authSchemaFields, sourceSchemaFields]

/-- When field deserialization produced no errors, loading the query
reduces to the schema-level validator. -/
theorem loadGM_of_parse_nil {args : List (String × String)} {d : GMData}
    (hp : parseGM args = ([], d)) :
    loadGetMeasurements args =
      (match validateCoordinates d with
       | CoordCheck.crash k => GMLoad.generr ("\x27" ++ k ++ "\x27")
       | CoordCheck.err m => GMLoad.verr [("_schema", m)]
       | CoordCheck.ok u l a b =>
           GMLoad.ok ⟨u, l, a, b, d.minAge, d.maxAge, d.minAcc, d.maxAcc, d.mfields⟩) := by
  cases hv : validateCoordinates d <;> simp [loadGetMeasurements, hp, hv]

/-! ## Claims -/

/-- C3: a POST /auth body that omits the `psk` field (or whose `psk`
fails validation) gets HTTP 401, not the generic 400. -/
theorem c3_missing_psk_is_401 (secret : String) (body : Body) (db : DB)
    (h : lookupJ body "psk" = none ∨
         ∃ v, lookupJ body "psk" = some v ∧ checkString v = false) :
    (authStep secret body db).1.status = 401 := by
  have hf : ∃ m, ("psk", m) ∈ fieldErrors authSchemaFields body := by
    rcases h with h | ⟨v, hv, hc⟩
    · refine ⟨"Missing data for required field.",
        List.mem_filterMap.2 ⟨⟨"psk", true, checkString⟩, ?_, ?_⟩⟩
      · simp [authSchemaFields, sourceSchemaFields]
      · simp [fieldErrOf, h]
    · refine ⟨"Invalid value.",
        List.mem_filterMap.2 ⟨⟨"psk", true, checkString⟩, ?_, ?_⟩⟩
      · simp [authSchemaFields, sourceSchemaFields]
      · simp [fieldErrOf, hv, hc]
  obtain ⟨m, hm⟩ := hf
  have hpsk : "psk" ∈ (authValidationErrors body).map Prod.fst :=
    List.mem_map.2 ⟨("psk", m), List.mem_append_left _ hm, rfl⟩
  have hne : authValidationErrors body ≠ [] := by
    intro hnil
    rw [hnil] at hpsk
    simp at hpsk
  obtain ⟨hd, tl, he⟩ := List.exists_cons_of_ne_nil hne
  rw [he] at hpsk
  simp only [authStep, he]
  rw [if_pos hpsk]

/-- C4: a shape-valid POST /auth body whose `psk` differs from the
configured secret gets HTTP 403 with message
`No or wrong PSK provided.`, and the state is untouched. -/
theorem c4_wrong_psk_is_403 (secret : String) (body : Body) (db : DB) (p : String)
    (hval : authValidationErrors body = [])
    (hpsk : lookupJ body "psk" = some (JValue.s p))
    (hne : p ≠ secret) :
    authStep secret body db =
      (⟨403, some (RespMessage.text "No or wrong PSK provided."), none, none, none, none⟩,
       db) := by
  have hg : getStr body "psk" = p := by simp [getStr, hpsk]
  simp only [authStep, hval]
  simp [hg, hne]

/-- C7: the code slip behind the claim — a GET /measurements request
that omits a required bounding-box parameter reaches
`validate_coordinates` with the field absent from the data, the
`KeyError` escapes, and Flask answers 500, not the promised 400. -/
theorem c7_missing_bbox_param_is_500 :
    getMeasurementsStep c7Args emptyDB =
      (⟨500, some (RespMessage.text "\x27longitude_lower_bound\x27"),
        none, none, none, none⟩, emptyDB) := by
  rfl

/-- C8: GET /measurement/{id} with a well-formed identifier answers 404
naming the identifier when no document matches, and otherwise 200 with
the full record or exactly the requested projection of it. -/
theorem c8_get_measurement_contract (mid : String) (args : List (String × String)) (db : DB)
    (hvalid : isObjectIdStr mid = true) :
    (db.measurements.find? (fun m => natToObjectId m.id == mid) = none →
       (getMeasurementStep mid args db).1 =
         ⟨404, some (RespMessage.text
             ("Measurement with object id " ++ mid ++ " was not found.")),
          none, none, none, none⟩)
    ∧ (∀ m, db.measurements.find? (fun m => natToObjectId m.id == mid) = some m →
         lookupStr args "measurement_fields" = none →
         (getMeasurementStep mid args db).1 =
           ⟨200, none, none, some (dumpMeasurement m), none, none⟩)
    ∧ (∀ m fs, db.measurements.find? (fun m => natToObjectId m.id == mid) = some m →
         lookupStr args "measurement_fields" = some fs →
         (getMeasurementStep mid args db).1 =
           ⟨200, none, none,
            some (projectFields (splitComma fs) (dumpMeasurement m)), none, none⟩
         ∧ ∀ kv ∈ projectFields (splitComma fs) (dumpMeasurement m),
             kv.1 ∈ splitComma fs) := by
  refine ⟨?_, ?_, ?_⟩
  · intro hn
    simp [getMeasurementStep, hvalid, hn]
  · intro m hm hmf
    simp [getMeasurementStep, hvalid, hm, hmf, projectOpt]
  · intro m fs hm hmf
    constructor
    · simp [getMeasurementStep, hvalid, hm, hmf, projectOpt]
    · intro kv hkv
      have hmem := List.mem_filter.1 hkv
      simpa using hmem.2

/-- C1: a valid POST /auth body with the correct psk either persists
exactly one new Source and answers 201 with its id (unseen
`(imei, imsi)` pair), or updates only the matching record's
`readable_name` and answers 200 with the existing id; every record with
a different id is untouched. -/
theorem c1_auth_create_or_update (secret : String) (body : Body) (db : DB)
    (hval : authValidationErrors body = [])
    (_hkeys : ∀ k ∈ body.map Prod.fst,
        k ∈ (["imei", "imsi", "readable_name", "psk"] : List String))
    (hpsk : getStr body "psk" = secret) :
    (db.sources.filter
        (fun r => r.imei == getStr body "imei" && r.imsi == getStr body "imsi") = [] →
       authStep secret body db =
         (⟨201, none, some db.nextId, none, none, none⟩,
          ⟨db.sources ++
             [⟨db.nextId, getStr body "imei", getStr body "imsi",
               getStr body "readable_name"⟩],
           db.measurements, db.nextId + 1⟩))
    ∧ (∀ r, db.sources.filter
          (fun r => r.imei == getStr body "imei" && r.imsi == getStr body "imsi") = [r] →
        authStep secret body db =
          (⟨200, none, some r.id, none, none, none⟩,
           ⟨updateSourceName db.sources r.id (getStr body "readable_name"),
            db.measurements, db.nextId⟩)
        ∧ (updateSourceName db.sources r.id (getStr body "readable_name")).length =
            db.sources.length
        ∧ ∀ s ∈ db.sources, s.id ≠ r.id →
            s ∈ updateSourceName db.sources r.id (getStr body "readable_name")) := by
  constructor
  · intro hfil
    simp only [authStep, hval]
    simp [hpsk, hfil]
  · intro r hfil
    refine ⟨?_, ?_, ?_⟩
    · simp only [authStep, hval]
      simp [hpsk, hfil]
    · simp [updateSourceName]
    · intro s hs hne
      rw [updateSourceName]
      refine List.mem_map.2 ⟨s, hs, ?_⟩
      simp [hne]

/-- C2: a POST body (to /auth or /measurements) containing an undeclared
top-level field is answered 400 with `Received data for unexpected
field.` whenever every declared field validates. -/
theorem c2_unknown_field_is_400 (secret : String) (body : Body) (db : DB) (k : String)
    (hk : k ∈ body.map Prod.fst) :
    (k ∉ fieldNames authSchemaFields →
       fieldErrors authSchemaFields body = [] →
       ∃ errs, (authStep secret body db).1 =
           ⟨400, some (RespMessage.fieldMap errs), none, none, none, none⟩
         ∧ (k, "Received data for unexpected field.") ∈ errs)
    ∧ (k ∉ fieldNames measurementSchemaFields →
       fieldErrors measurementSchemaFields body = [] →
       ∃ errs, (postMeasurementStep body db).1 =
           ⟨400, some (RespMessage.fieldMap errs), none, none, none, none⟩
         ∧ (k, "Received data for unexpected field.") ∈ errs) := by
  constructor
  · intro hnk hfe
    have hku : k ∈ unknownFields authSchemaFields body :=
      List.mem_filter.2 ⟨hk, decide_eq_true hnk⟩
    have hmem : (k, "Received data for unexpected field.") ∈ authValidationErrors body :=
      List.mem_append_right _
        (List.mem_map_of_mem (fun k => (k, "Received data for unexpected field.")) hku)
    have hnn : authValidationErrors body ≠ [] := List.ne_nil_of_mem hmem
    obtain ⟨hd, tl, he⟩ := List.exists_cons_of_ne_nil hnn
    have hnp : "psk" ∉ (authValidationErrors body).map Prod.fst :=
      psk_not_in_unknown_errors hfe
    rw [he] at hnp hmem
    refine ⟨hd :: tl, ?_, hmem⟩
    simp only [authStep, he]
    rw [if_neg hnp]
  · intro hnk hfe
    have hku : k ∈ unknownFields measurementSchemaFields body :=
      List.mem_filter.2 ⟨hk, decide_eq_true hnk⟩
    have hmem : (k, "Received data for unexpected field.") ∈
        schemaErrors measurementSchemaFields body :=
      List.mem_append_right _
        (List.mem_map_of_mem (fun k => (k, "Received data for unexpected field.")) hku)
    have hnn : schemaErrors measurementSchemaFields body ≠ [] := List.ne_nil_of_mem hmem
    obtain ⟨hd, tl, he⟩ := List.exists_cons_of_ne_nil hnn
    rw [he] at hmem
    refine ⟨hd :: tl, ?_, hmem⟩
    simp only [postMeasurementStep, he]

/-- C5: a valid bounding-box query answers 200 with exactly the
measurements satisfying the specification's predicate — closed latitude
and longitude intervals plus every supplied age and accuracy bound — the
`len` field counting them, with no limit applied. -/
theorem c5_bounding_box_query (args : List (String × String)) (p : QueryParams) (db : DB)
    (hload : loadGetMeasurements args = GMLoad.ok p) :
    (getMeasurementsStep args db).1.status = 200
    ∧ (getMeasurementsStep args db).1.len =
        some ((db.measurements.filter (specMatches p)).length)
    ∧ (getMeasurementsStep args db).1.results =
        some ((db.measurements.filter (specMatches p)).map
          (fun m => projectOpt p.mfields (dumpMeasurement m)))
    ∧ ∀ rs, (getMeasurementsStep args db).1.results = some rs →
        (getMeasurementsStep args db).1.len = some rs.length := by
  have hsm : db.measurements.filter (specMatches p) =
      db.measurements.filter (matchesQuery p) :=
    List.filter_congr (fun m _ => by rw [specMatches_eq_matchesQuery])
  refine ⟨?_, ?_, ?_, ?_⟩
  · simp [getMeasurementsStep, hload]
  · simp [getMeasurementsStep, hload, hsm]
  · simp [getMeasurementsStep, hload, hsm]
  · intro rs hrs
    have h2 : (getMeasurementsStep args db).1.results =
        some ((db.measurements.filter (matchesQuery p)).map
          (fun m => projectOpt p.mfields (dumpMeasurement m))) := by
      simp [getMeasurementsStep, hload]
    rw [h2] at hrs
    injection hrs with h3
    subst h3
    simp [getMeasurementsStep, hload]

/-- C6: with all four bounding-box parameters deserialized, each
cross-field violation is answered 400 with the message naming the
violated constraint (checked in source order), and equal bounds are
accepted. -/
theorem c6_cross_field_validation (args : List (String × String)) (db : DB) (d : GMData)
    (u l a b : Rat)
    (hp : parseGM args = ([], d))
    (h1 : d.latU = some u) (h2 : d.latL = some l)
    (h3 : d.lonL = some a) (h4 : d.lonU = some b) :
    (u < l → (getMeasurementsStep args db).1 =
       ⟨400, some (RespMessage.fieldMap
          [("_schema",
            "latitude_upper_bound must be greater than latitude_lower_bound.")]),
        none, none, none, none⟩)
    ∧ (¬ u < l → a > b → (getMeasurementsStep args db).1 =
       ⟨400, some (RespMessage.fieldMap
          [("_schema",
            "longitude_lower_bound must be smaller than longitude_upper_bound.")]),
        none, none, none, none⟩)
    ∧ (¬ u < l → ¬ a > b →
       ∀ x y, d.minAge = some x → d.maxAge = some y → x > y →
       (getMeasurementsStep args db).1 =
         ⟨400, some (RespMessage.fieldMap
            [("_schema", "min_location_age must be smaller than max_location_age.")]),
          none, none, none, none⟩)
    ∧ (¬ u < l → ¬ a > b → ageBoundsOk d →
       ∀ x y, d.minAcc = some x → d.maxAcc = some y → x > y →
       (getMeasurementsStep args db).1 =
         ⟨400, some (RespMessage.fieldMap
            [("_schema",
              "min_location_accuracy must be smaller than max_location_accuracy.")]),
          none, none, none, none⟩)
    ∧ (u = l → a = b → ageBoundsOk d → accBoundsOk d →
       (getMeasurementsStep args db).1.status = 200) := by
  refine ⟨?_, ?_, ?_, ?_, ?_⟩
  · intro hul
    simp only [getMeasurementsStep, loadGM_of_parse_nil hp]
    simp only [validateCoordinates, h1, h2]
    rw [if_pos hul]
  · intro hul hab
    simp only [getMeasurementsStep, loadGM_of_parse_nil hp]
    simp only [validateCoordinates, h1, h2, h3, h4]
    rw [if_neg hul, if_pos hab]
  · intro hul hab x y hx hy hxy
    simp only [getMeasurementsStep, loadGM_of_parse_nil hp]
    simp only [validateCoordinates, h1, h2, h3, h4, hx, hy]
    rw [if_neg hul, if_neg hab, if_pos hxy]
  · intro hul hab hage x y hx hy hxy
    simp only [getMeasurementsStep, loadGM_of_parse_nil hp]
    simp only [validateCoordinates, h1, h2, h3, h4]
    rw [if_neg hul, if_neg hab]
    have hAcc : checkAccuracyBounds u l a b d =
        CoordCheck.err
          "min_location_accuracy must be smaller than max_location_accuracy." := by
      simp only [checkAccuracyBounds, hx, hy]
      rw [if_pos hxy]
    rcases hxa : d.minAge with _ | x2
    · simp only [hxa, hAcc]
    · rcases hya : d.maxAge with _ | y2
      · simp only [hxa, hya, hAcc]
      · have hle := hage x2 y2 hxa hya
        simp only [hxa, hya]
        rw [if_neg (not_lt.mpr hle), hAcc]
  · intro heq1 heq2 hage hacc
    have hul : ¬ u < l := by
      rw [heq1]
      exact lt_irrefl l
    have hab : ¬ a > b := by
      rw [heq2]
      exact lt_irrefl b
    simp only [getMeasurementsStep, loadGM_of_parse_nil hp]
    simp only [validateCoordinates, h1, h2, h3, h4]
    rw [if_neg hul, if_neg hab]
    have hAcc : checkAccuracyBounds u l a b d = CoordCheck.ok u l a b := by
      rcases hxc : d.minAcc with _ | x
      · simp only [checkAccuracyBounds, hxc]
      · rcases hyc : d.maxAcc with _ | y
        · simp only [checkAccuracyBounds, hxc, hyc]
        · have hle := hacc x y hxc hyc
          simp only [checkAccuracyBounds, hxc, hyc]
          rw [if_neg (not_lt.mpr hle)]
    rcases hxa : d.minAge with _ | x
    · simp only [hxa, hAcc]
    · rcases hya : d.maxAge with _ | y
      · simp only [hxa, hya, hAcc]
      · have hle := hage x y hxa hya
        simp only [hxa, hya]
        rw [if_neg (not_lt.mpr hle), hAcc]

/-- C9: every request answered with a failure status (400, 401, 403 or
404) leaves both collections untouched; the two GET handlers never write
at all. -/
theorem c9_failures_leave_state_unchanged :
    (∀ (secret : String) (body : Body) (db : DB),
       (authStep secret body db).1.status ∈ ([400, 401, 403, 404] : List Nat) →
       (authStep secret body db).2 = db)
    ∧ (∀ (body : Body) (db : DB),
       (postMeasurementStep body db).1.status ∈ ([400, 401, 403, 404] : List Nat) →
       (postMeasurementStep body db).2 = db)
    ∧ (∀ (mid : String) (args : List (String × String)) (db : DB),
       (getMeasurementStep mid args db).2 = db)
    ∧ (∀ (args : List (String × String)) (db : DB),
       (getMeasurementsStep args db).2 = db) := by
  refine ⟨?_, ?_, ?_, ?_⟩
  · intro secret body db
    simp only [authStep]
    split
    · split
      · split
        · intro h
          simp at h
        · intro h
          simp at h
        · intro _
          rfl
      · intro _
        rfl
    · intro _
      rfl
  · intro body db
    simp only [postMeasurementStep]
    split
    · intro h
      simp at h
    · intro _
      rfl
  · intro mid args db
    simp only [getMeasurementStep]
    split
    · split <;> rfl
    · rfl
  · intro args db
    simp only [getMeasurementsStep]
    split <;> rfl

/-- C10: a GET /measurement/{id} request whose path identifier is not a
syntactically valid ObjectId is answered 400 through the validation-error
mapping, and 404 is only reachable for well-formed identifiers. -/
theorem c10_malformed_objectid_is_400 (mid : String) (args : List (String × String)) (db : DB) :
    (isObjectIdStr mid = false →
       (getMeasurementStep mid args db).1 =
         ⟨400, some (RespMessage.text (mid ++ " is not a valid ObjectId")),
          none, none, none, none⟩)
    ∧ ((getMeasurementStep mid args db).1.status = 404 → isObjectIdStr mid = true) := by
  constructor
  · intro h
    simp [getMeasurementStep, h]
  · intro h404
    cases hv : isObjectIdStr mid
    · simp [getMeasurementStep, hv] at h404
    · rfl

/-! ## Witnesses -/

/-- A fresh `(imei, imsi)` pair on an empty database: one Source is
persisted and the answer is 201 with its id. -/
theorem c1_auth_create_or_update_witness :
    authValidationErrors c1Body = [] ∧
    authStep "defaultpsk" c1Body emptyDB =
      (⟨201, none, some 0, none, none, none⟩,
       ⟨[⟨0, "350000000000001", "262010000000001", "test phone"⟩], [], 1⟩) :=
  ⟨rfl, (c1_auth_create_or_update "defaultpsk" c1Body emptyDB rfl (by decide) rfl).1 rfl⟩

/-- An auth body with the undeclared field `foo` and all declared fields
valid is answered 400 with the unexpected-field message. -/
theorem c2_unknown_field_is_400_witness :
    ∃ errs, (authStep "defaultpsk" c2Body emptyDB).1 =
        ⟨400, some (RespMessage.fieldMap errs), none, none, none, none⟩
      ∧ ("foo", "Received data for unexpected field.") ∈ errs :=
  (c2_unknown_field_is_400 "defaultpsk" c2Body emptyDB "foo" (by decide)).1 (by decide) rfl

/-- An auth body lacking `psk` is answered 401. -/
theorem c3_missing_psk_is_401_witness :
    (authStep "defaultpsk" c3Body emptyDB).1.status = 401 :=
  c3_missing_psk_is_401 "defaultpsk" c3Body emptyDB (Or.inl rfl)

/-- A shape-valid auth body with the wrong `psk` is answered 403. -/
theorem c4_wrong_psk_is_403_witness :
    authValidationErrors c4Body = [] ∧
    authStep "defaultpsk" c4Body emptyDB =
      (⟨403, some (RespMessage.text "No or wrong PSK provided."), none, none, none, none⟩,
       emptyDB) :=
  ⟨rfl, c4_wrong_psk_is_403 "defaultpsk" c4Body emptyDB "wrongpsk" rfl rfl (by decide)⟩

/-- Latitudes 10, 20 and 30 against the box with latitude bounds 15..25:
only the latitude-20 record is returned and `len` is 1. -/
theorem c5_bounding_box_query_witness :
    loadGetMeasurements c5Args = GMLoad.ok c5P
    ∧ (getMeasurementsStep c5Args c5DB).1.len = some 1
    ∧ (getMeasurementsStep c5Args c5DB).1.results = some [dumpMeasurement (mAt 1 20)] := by
  refine ⟨rfl, ?_, ?_⟩
  · have h := (c5_bounding_box_query c5Args c5P c5DB rfl).2.1
    rw [h]
    rfl
  · have h := (c5_bounding_box_query c5Args c5P c5DB rfl).2.2.1
    rw [h]
    rfl

/-- Inverted latitude bounds are answered 400 naming the latitude
constraint. -/
theorem c6_cross_field_validation_witness :
    parseGM c6Args = ([], c6Data)
    ∧ (getMeasurementsStep c6Args emptyDB).1 =
        ⟨400, some (RespMessage.fieldMap
           [("_schema",
             "latitude_upper_bound must be greater than latitude_lower_bound.")]),
         none, none, none, none⟩ :=
  ⟨rfl, (c6_cross_field_validation c6Args emptyDB c6Data 10 20 0 1
      rfl rfl rfl rfl rfl).1 (by decide)⟩

/-- A well-formed identifier matching no measurement is answered 404
naming it. -/
theorem c8_get_measurement_contract_witness :
    isObjectIdStr (natToObjectId 5) = true
    ∧ (getMeasurementStep (natToObjectId 5) [] emptyDB).1 =
        ⟨404, some (RespMessage.text
            ("Measurement with object id " ++ natToObjectId 5 ++ " was not found.")),
         none, none, none, none⟩ :=
  ⟨rfl, (c8_get_measurement_contract (natToObjectId 5) [] emptyDB rfl).1 rfl⟩

/-- A 403-failing auth request leaves the database unchanged. -/
theorem c9_failures_leave_state_unchanged_witness :
    (authStep "defaultpsk" c4Body emptyDB).2 = emptyDB :=
  c9_failures_leave_state_unchanged.1 "defaultpsk" c4Body emptyDB (by decide)

/-- A malformed path identifier is answered 400 through the
validation-error mapping. -/
theorem c10_malformed_objectid_is_400_witness :
    (getMeasurementStep "zzz" [] emptyDB).1 =
      ⟨400, some (RespMessage.text "zzz is not a valid ObjectId"), none, none, none, none⟩ :=
  (c10_malformed_objectid_is_400 "zzz" [] emptyDB).1 rfl

end CellIdTracker
